import Mathlib

/-!
Verification of the Kawarp rendering engine
(`packages/core/src/index.ts`, class `Kawarp` — the current version with
tint, dithering and the accumulated-time animation scheduler).

The engine's mutable per-instance fields are embedded as an explicit
`EngineState` record; each public method becomes a state transformer.
Times and parameter values are modelled as exact rationals; the one
place where JavaScript number semantics matter beyond field arithmetic
is the blend-factor division `elapsed / durationMs`, which can divide
by zero, so that computation is carried out in a type `JSNum` that has
`NaN` and the two infinities with IEEE-style comparison semantics.
-/

namespace Kawarp

/-- A JavaScript number as relevant to the blend-factor computation:
a finite value (exact rational), `Infinity`, `-Infinity`, or `NaN`. -/
inductive JSNum where
  | num (q : ℚ)
  | posInf
  | negInf
  | nan
  deriving DecidableEq, Repr

/-- JavaScript division `a / b` on finite operands: finite division when
`b ≠ 0`; `±Infinity` when `b = 0 ∧ a ≠ 0` (sign of `a`); `NaN` for `0 / 0`. -/
def jsDiv (a b : ℚ) : JSNum :=
  if b ≠ 0 then .num (a / b)
  else if 0 < a then .posInf
  else if a < 0 then .negInf
  else .nan

/-- `Math.min`: returns `NaN` if either argument is `NaN`. -/
def jsMin : JSNum → JSNum → JSNum
  | .nan, _ => .nan
  | _, .nan => .nan
  | .negInf, _ => .negInf
  | _, .negInf => .negInf
  | .posInf, y => y
  | x, .posInf => x
  | .num a, .num b => .num (min a b)

/-- JavaScript `<=`: any comparison with `NaN` is false. -/
def jsLe : JSNum → JSNum → Bool
  | .nan, _ => false
  | _, .nan => false
  | .negInf, _ => true
  | _, .negInf => false
  | _, .posInf => true
  | .posInf, _ => false
  | .num a, .num b => a ≤ b

/-- JavaScript `<`: any comparison with `NaN` is false. -/
def jsLt : JSNum → JSNum → Bool
  | .nan, _ => false
  | _, .nan => false
  | .negInf, .negInf => false
  | .negInf, _ => true
  | _, .negInf => false
  | .posInf, _ => false
  | _, .posInf => true
  | .num a, .num b => a < b

/-- JavaScript `>=` (`x >= y` is `y <= x`; false whenever `NaN` is involved). -/
def jsGe (x y : JSNum) : Bool := jsLe y x

/-- Abstract identity of a decoded raster image handed to the engine. -/
abbrev Image := ℕ

/-- What an album/framebuffer texture currently holds, at the level of
provenance: nothing yet, or the output of the blur pipeline run on a given
source image with given parameters (`blurSourceInto`'s postcondition). -/
inductive AlbumVal where
  | empty
  | blurred (src : Image) (passes : ℤ) (tintR tintG tintB tintI : ℚ)
  deriving DecidableEq, Repr

/-- The mutable per-instance fields of class `Kawarp`.  Framebuffers are
identified by natural-number ids; `liveTargets` is the set of currently
allocated render targets and `nextId` the allocator for fresh ids
(`createFramebuffer` hands out `nextId`). -/
@[ext]
structure EngineState where
  warpIntensity : ℚ
  blurPasses : ℤ
  animationSpeed : ℚ
  targetAnimationSpeed : ℚ
  transitionDuration : ℚ
  saturation : ℚ
  tintR : ℚ
  tintG : ℚ
  tintB : ℚ
  tintIntensity : ℚ
  dithering : ℚ
  hasImage : Bool
  isTransitioning : Bool
  transitionStartTime : ℚ
  lastFrameTime : ℚ
  accumulatedTime : ℚ
  isPlaying : Bool
  animationId : Option ℕ
  sourceImage : Image
  blurFBO1 : ℕ
  blurFBO2 : ℕ
  currentAlbumFBO : ℕ
  nextAlbumFBO : ℕ
  warpFBO : ℕ
  nextId : ℕ
  liveTargets : Finset ℕ
  content : ℕ → AlbumVal

/-- The provenance value `blurSourceInto` writes into its target:
the source texture blurred with the current pass count and tint. -/
def blurSpec (s : EngineState) : AlbumVal :=
  .blurred s.sourceImage s.blurPasses s.tintR s.tintG s.tintB s.tintIntensity

/-- `blurSourceInto(targetFBO)`: runs tint + Kawase passes and writes the
result into the target (state-level effect; the per-pixel semantics of the
pass schedule is modelled separately below). -/
def blurSourceInto (s : EngineState) (target : ℕ) : EngineState :=
  { s with content := Function.update s.content target (blurSpec s) }

/-- `reblurCurrentImage()`: re-blur into `nextAlbumFBO` in place. -/
def reblurCurrentImage (s : EngineState) : EngineState :=
  blurSourceInto s s.nextAlbumFBO

/-- `processNewImage()`: swap the two album FBO references, blur the source
into the (new) next slot, mark the image present and start a transition at
the current timestamp. -/
def processNewImage (s : EngineState) (now : ℚ) : EngineState :=
  let s1 := { s with currentAlbumFBO := s.nextAlbumFBO,
                     nextAlbumFBO := s.currentAlbumFBO }
  let s2 := blurSourceInto s1 s1.nextAlbumFBO
  { s2 with hasImage := true, isTransitioning := true,
            transitionStartTime := now }

/-- Resolution of any load path (`loadImage` / `loadImageElement` /
`loadImageData` / `loadGradient`): upload the decoded raster into the
source texture, then `processNewImage()` at the current timestamp. -/
def loadImageResolve (s : EngineState) (img : Image) (now : ℚ) : EngineState :=
  processNewImage { s with sourceImage := img } now

/-- Setter `warpIntensity`: clamp to `[0, 1]`. -/
def setWarpIntensity (s : EngineState) (v : ℚ) : EngineState :=
  { s with warpIntensity := max 0 (min 1 v) }

/-- Setter `blurPasses`: floor then clamp to `[1, 40]`; on an actual change
with an image loaded, re-blur in place. -/
def setBlurPasses (s : EngineState) (v : ℚ) : EngineState :=
  let newValue : ℤ := max 1 (min 40 ⌊v⌋)
  if newValue ≠ s.blurPasses then
    let s1 := { s with blurPasses := newValue }
    if s1.hasImage then reblurCurrentImage s1 else s1
  else s

/-- Setter `animationSpeed`: clamp to `[0.1, 5]`; writes only the target
speed, never the smoothed current speed. -/
def setAnimationSpeed (s : EngineState) (v : ℚ) : EngineState :=
  { s with targetAnimationSpeed := max (1/10) (min 5 v) }

/-- Getter `animationSpeed`: returns the target speed. -/
def getAnimationSpeed (s : EngineState) : ℚ :=
  s.targetAnimationSpeed

/-- Setter `transitionDuration`: clamp to `[0, 5000]`. -/
def setTransitionDuration (s : EngineState) (v : ℚ) : EngineState :=
  { s with transitionDuration := max 0 (min 5000 v) }

/-- Setter `saturation`: clamp to `[0, 3]`. -/
def setSaturation (s : EngineState) (v : ℚ) : EngineState :=
  { s with saturation := max 0 (min 3 v) }

/-- Setter `tintColor`: clamp each channel to `[0, 1]`; on an actual change
with an image loaded, re-blur in place. -/
def setTintColor (s : EngineState) (r g b : ℚ) : EngineState :=
  let nr := max 0 (min 1 r)
  let ng := max 0 (min 1 g)
  let nb := max 0 (min 1 b)
  if nr ≠ s.tintR ∨ ng ≠ s.tintG ∨ nb ≠ s.tintB then
    let s1 := { s with tintR := nr, tintG := ng, tintB := nb }
    if s1.hasImage then reblurCurrentImage s1 else s1
  else s

/-- Setter `tintIntensity`: clamp to `[0, 1]`; on an actual change with an
image loaded, re-blur in place. -/
def setTintIntensity (s : EngineState) (v : ℚ) : EngineState :=
  let newValue := max 0 (min 1 v)
  if newValue ≠ s.tintIntensity then
    let s1 := { s with tintIntensity := newValue }
    if s1.hasImage then reblurCurrentImage s1 else s1
  else s

/-- Setter `dithering`: clamp to `[0, 0.1]`. -/
def setDithering (s : EngineState) (v : ℚ) : EngineState :=
  { s with dithering := max 0 (min (1/10) v) }

/-- The record returned by `getOptions()`. -/
structure KawarpOptions where
  warpIntensity : ℚ
  blurPasses : ℤ
  animationSpeed : ℚ
  transitionDuration : ℚ
  saturation : ℚ
  tintR : ℚ
  tintG : ℚ
  tintB : ℚ
  tintIntensity : ℚ
  dithering : ℚ
  deriving DecidableEq, Repr

/-- `getOptions()`: the resolved current parameter set (note
`animationSpeed` reports the target speed, not the smoothed current one). -/
def getOptions (s : EngineState) : KawarpOptions :=
  { warpIntensity := s.warpIntensity
    blurPasses := s.blurPasses
    animationSpeed := s.targetAnimationSpeed
    transitionDuration := s.transitionDuration
    saturation := s.saturation
    tintR := s.tintR
    tintG := s.tintG
    tintB := s.tintB
    tintIntensity := s.tintIntensity
    dithering := s.dithering }

/-- `stop()`: halt the loop and clear the pending animation-frame id. -/
def stop (s : EngineState) : EngineState :=
  { s with isPlaying := false, animationId := none }

/-- `start(now)`: begin playing and reset the frame clock (no-op while
already playing). -/
def start (s : EngineState) (now : ℚ) : EngineState :=
  if s.isPlaying then s
  else { s with isPlaying := true, lastFrameTime := now }

/-- `resize()`: destroy the full-resolution warp target and create a fresh
one sized to the canvas. -/
def resize (s : EngineState) : EngineState :=
  { s with liveTargets := insert s.nextId (s.liveTargets.erase s.warpFBO),
           warpFBO := s.nextId,
           nextId := s.nextId + 1 }

/-- `dispose()`: `stop()`, then delete the five render targets (WebGL
deletion of an already-deleted object is a silent no-op, as is erasing an
absent element). -/
def dispose (s : EngineState) : EngineState :=
  let s1 := stop s
  { s1 with liveTargets :=
      ((((s1.liveTargets.erase s1.blurFBO1).erase s1.blurFBO2).erase
          s1.currentAlbumFBO).erase s1.nextAlbumFBO).erase s1.warpFBO }

/-- The state produced by `new Kawarp(canvas)` with default options:
framebuffer ids `0,1` for the blur scratch pair, `2,3` for the album pair,
and `4` for the initial 1×1 warp target, after which the constructor calls
`resize()` (replacing target `4` by `5`). -/
def initState : EngineState :=
  resize
    { warpIntensity := 1
      blurPasses := 8
      animationSpeed := 1
      targetAnimationSpeed := 1
      transitionDuration := 1000
      saturation := 3/2
      tintR := 157/1000
      tintG := 157/1000
      tintB := 235/1000
      tintIntensity := 15/100
      dithering := 8/1000
      hasImage := false
      isTransitioning := false
      transitionStartTime := 0
      lastFrameTime := 0
      accumulatedTime := 0
      isPlaying := false
      animationId := none
      sourceImage := 0
      blurFBO1 := 0
      blurFBO2 := 1
      currentAlbumFBO := 2
      nextAlbumFBO := 3
      warpFBO := 4
      nextId := 5
      liveTargets := {0, 1, 2, 3, 4}
      content := fun _ => .empty }

/-- The texture fed to the domain-warp pass of a frame: either the
crossfade blend of the two album textures at a given factor, or the next
album texture sampled directly. -/
inductive WarpInput where
  | blended (currentFBO nextFBO : ℕ) (b : JSNum)
  | direct (nextFBO : ℕ)
  deriving DecidableEq, Repr

/-- Description of one rendered frame: the logical time passed to the warp
shader and which texture path fed it. -/
structure FrameDesc where
  warpTime : ℚ
  input : WarpInput
  deriving DecidableEq, Repr

/-- The blend factor `render()` computes at a given frame timestamp:
`1.0` when idle, otherwise `Math.min(1, (timestamp − transitionStartTime)
/ transitionDuration)` with JavaScript division semantics. -/
def blendFactorAt (s : EngineState) (timestamp : ℚ) : JSNum :=
  if s.isTransitioning then
    jsMin (.num 1)
      (jsDiv (timestamp - s.transitionStartTime) s.transitionDuration)
  else .num 1

/-- `render(time, timestamp)`: compute the blend factor, end the transition
when it has reached `1.0`, then either blend-and-warp or warp the next
album texture directly.  Returns the new state and the frame description. -/
def render (s : EngineState) (time timestamp : ℚ) : EngineState × FrameDesc :=
  let blendFactor := blendFactorAt s timestamp
  let s1 := if s.isTransitioning && jsGe blendFactor (.num 1)
            then { s with isTransitioning := false } else s
  let input := if s1.isTransitioning && jsLt blendFactor (.num 1)
               then WarpInput.blended s1.currentAlbumFBO s1.nextAlbumFBO blendFactor
               else WarpInput.direct s1.nextAlbumFBO
  (s1, { warpTime := time, input := input })

/-- `renderFrame(time?)`: with an explicit time, render at exactly that
time; without one, advance the scheduler (delta-time, speed smoothing,
time accumulation) and render at the accumulated time. -/
def renderFrame (s : EngineState) (timeArg : Option ℚ) (now : ℚ) :
    EngineState × FrameDesc :=
  match timeArg with
  | some t => render s t now
  | none =>
    let dt := (now - s.lastFrameTime) / 1000
    let speed := s.animationSpeed +
      (s.targetAnimationSpeed - s.animationSpeed) * (5/100)
    let acc := s.accumulatedTime + dt * speed
    let s1 := { s with lastFrameTime := now, animationSpeed := speed,
                       accumulatedTime := acc }
    render s1 acc now

/-- One tick of the `renderLoop` callback at a given timestamp (`newId` is
the id `requestAnimationFrame` hands back for the next frame): bail out if
not playing, else smooth the speed, accumulate logical time and render. -/
def renderLoopTick (s : EngineState) (timestamp : ℚ) (newId : ℕ) :
    EngineState × Option FrameDesc :=
  if s.isPlaying then
    let dt := (timestamp - s.lastFrameTime) / 1000
    let speed := s.animationSpeed +
      (s.targetAnimationSpeed - s.animationSpeed) * (5/100)
    let acc := s.accumulatedTime + dt * speed
    let s1 := { s with lastFrameTime := timestamp, animationSpeed := speed,
                       accumulatedTime := acc }
    let r := render s1 acc timestamp
    ({ r.1 with animationId := some newId }, some r.2)
  else (s, none)

/-- An image at the fixed small blur resolution, as a mathematical function
from UV coordinates to RGBA channel values (exact rationals; GPU filtering
aside, this is the shader arithmetic). -/
abbrev Img := (ℚ × ℚ) → Fin 4 → ℚ

/-- `1.0 / u_resolution` at the fixed small size `BLUR_SIZE = 128`. -/
def texelSize : ℚ × ℚ := (1/128, 1/128)

/-- One draw of `KAWASE_BLUR_SHADER` at a given offset: sample the four
diagonal neighbours at `offset` texel-units and multiply the sum by 0.25. -/
def kawasePass (img : Img) (offset : ℚ) : Img := fun uv c =>
  (img (uv.1 - offset * texelSize.1, uv.2 - offset * texelSize.2) c +
   img (uv.1 + offset * texelSize.1, uv.2 - offset * texelSize.2) c +
   img (uv.1 - offset * texelSize.1, uv.2 + offset * texelSize.2) c +
   img (uv.1 + offset * texelSize.1, uv.2 + offset * texelSize.2) c) * (1/4)

/-- GLSL `smoothstep(e0, e1, x)`. -/
def smoothstep (e0 e1 x : ℚ) : ℚ :=
  let t := max 0 (min 1 ((x - e0) / (e1 - e0)))
  t * t * (3 - 2 * t)

/-- BT.601 luma `dot(rgb, vec3(0.299, 0.587, 0.114))`. -/
def luma (c : Fin 4 → ℚ) : ℚ :=
  c 0 * (299/1000) + c 1 * (587/1000) + c 2 * (114/1000)

/-- `TINT_SHADER`: blend dark areas toward the tint color by
`darkMask × tintIntensity`, where `darkMask = 1 − smoothstep(0, 0.5, luma)`;
alpha is passed through. -/
def tintShader (img : Img) (tr tg tb ti : ℚ) : Img := fun uv c =>
  let col := img uv
  let darkMask := 1 - smoothstep 0 (1/2) (luma col)
  let mixTo : ℚ → ℚ → ℚ := fun orig tint => orig + (tint - orig) * (darkMask * ti)
  if c = 0 then mixTo (col 0) tr
  else if c = 1 then mixTo (col 1) tg
  else if c = 2 then mixTo (col 2) tb
  else col 3

/-- One recorded framebuffer draw of the blur pipeline: which target is
sampled, which one is rendered into, and the `u_offset` uniform. -/
structure BlurDraw where
  read : ℕ
  write : ℕ
  offset : ℚ
  deriving DecidableEq, Repr

/-- The draws issued by the `for` loop of `blurSourceInto` from loop index
`i` up to `passes`, with current read/write scratch targets `r`/`w`
(swapped after every pass); also returns the read target left when the
loop exits (the last-written scratch). -/
def blurLoopDraws (i passes r w : ℕ) : List BlurDraw × ℕ :=
  if _h : i < passes then
    let rest := blurLoopDraws (i + 1) passes w r
    (⟨r, w, (i : ℚ) + 1/2⟩ :: rest.1, rest.2)
  else ([], r)
termination_by passes - i

/-- The full draw list of `blurSourceInto`: the Kawase loop starting with
read = `blurFBO1` (holding the tint output) and write = `blurFBO2`,
followed by the final copy draw at offset `0` into the destination. -/
def blurDraws (passes target b1 b2 : ℕ) : List BlurDraw :=
  let loop := blurLoopDraws 0 passes b1 b2
  loop.1 ++ [⟨loop.2, target, 0⟩]

/-- Execute one draw on the framebuffer memory: the write target becomes
the Kawase pass of the read target's image at the draw's offset. -/
def applyDraw (mem : ℕ → Img) (d : BlurDraw) : ℕ → Img :=
  Function.update mem d.write (kawasePass (mem d.read) d.offset)

/-- Per-pixel semantics of `blurSourceInto`: the tint shader writes
`blurFBO1` from the source image, then the recorded draw list runs. -/
def blurSourceIntoSem (src : Img) (tr tg tb ti : ℚ) (passes : ℕ)
    (target b1 b2 : ℕ) (mem : ℕ → Img) : ℕ → Img :=
  (blurDraws passes target b1 b2).foldl applyDraw
    (Function.update mem b1 (tintShader src tr tg tb ti))

/-- The mathematical Kawase chain: apply `n` passes with offsets
`i + 0.5`, `i + 1.5`, …, ascending from start index `i`. -/
def kawaseChain (img : Img) (i : ℕ) : ℕ → Img
  | 0 => img
  | n + 1 => kawaseChain (kawasePass img ((i : ℚ) + 1/2)) (i + 1) n

/-- Every state-mutating operation of the public API, for quantifying over
"any other operation". -/
inductive Op where
  | opSetWarpIntensity (v : ℚ)
  | opSetBlurPasses (v : ℚ)
  | opSetAnimationSpeed (v : ℚ)
  | opSetTransitionDuration (v : ℚ)
  | opSetSaturation (v : ℚ)
  | opSetTintColor (r g b : ℚ)
  | opSetTintIntensity (v : ℚ)
  | opSetDithering (v : ℚ)
  | opIngest (img : Image) (now : ℚ)
  | opStart (now : ℚ)
  | opStop
  | opResize
  | opDispose
  | opTick (ts : ℚ) (id : ℕ)
  | opRenderFrame (t : Option ℚ) (now : ℚ)

/-- Whether an operation renders a frame (i.e. executes `render()`). -/
def isFrameOp : Op → Bool
  | .opTick _ _ => true
  | .opRenderFrame _ _ => true
  | _ => false

/-- Interpretation of each operation as a state transformer. -/
def applyOp : Op → EngineState → EngineState
  | .opSetWarpIntensity v, s => setWarpIntensity s v
  | .opSetBlurPasses v, s => setBlurPasses s v
  | .opSetAnimationSpeed v, s => setAnimationSpeed s v
  | .opSetTransitionDuration v, s => setTransitionDuration s v
  | .opSetSaturation v, s => setSaturation s v
  | .opSetTintColor r g b, s => setTintColor s r g b
  | .opSetTintIntensity v, s => setTintIntensity s v
  | .opSetDithering v, s => setDithering s v
  | .opIngest img now, s => loadImageResolve s img now
  | .opStart now, s => start s now
  | .opStop, s => stop s
  | .opResize, s => resize s
  | .opDispose, s => dispose s
  | .opTick ts id, s => (renderLoopTick s ts id).1
  | .opRenderFrame t now, s => (renderFrame s t now).1

/-- Sequence of `N` successive ingests (image, timestamp). -/
def ingestSeq (s : EngineState) (l : List (Image × ℚ)) : EngineState :=
  l.foldl (fun st p => loadImageResolve st p.1 p.2) s

/-- A concrete engine state mid-transition: an image is loaded, a
transition started at timestamp 100 with the default 1000 ms duration. -/
def demoActive : EngineState :=
  { initState with hasImage := true, isTransitioning := true,
                   transitionStartTime := 100, transitionDuration := 1000 }

/-- A concrete engine state mid-"transition" with duration clamped to 0:
ingest happened at timestamp 50. -/
def demoCut : EngineState :=
  { initState with hasImage := true, isTransitioning := true,
                   transitionStartTime := 50, transitionDuration := 0 }

/-- A concrete engine state with the animation loop running. -/
def demoPlaying : EngineState :=
  { initState with isPlaying := true }

/-- The state reached by setting `transitionDuration = 0` on a fresh engine
and ingesting image 1 at timestamp 0. -/
def stateDur0 : EngineState :=
  loadImageResolve (setTransitionDuration initState 0) 1 0

/-- The state reached by disposing a fresh engine and then having a
pending load resolve (image 1 at timestamp 5). -/
def disposedIngest : EngineState :=
  loadImageResolve (dispose initState) 1 5

theorem render_fst (s : EngineState) (t ts : ℚ) :
    (render s t ts).1 =
      if s.isTransitioning && jsGe (blendFactorAt s ts) (.num 1)
      then { s with isTransitioning := false } else s := rfl

theorem render_warpTime (s : EngineState) (t ts : ℚ) :
    (render s t ts).2.warpTime = t := rfl

theorem setBlurPasses_fields (s : EngineState) (v : ℚ) :
    (setBlurPasses s v).isTransitioning = s.isTransitioning ∧
    (setBlurPasses s v).transitionStartTime = s.transitionStartTime ∧
    (setBlurPasses s v).transitionDuration = s.transitionDuration ∧
    (setBlurPasses s v).blurPasses = max 1 (min 40 ⌊v⌋) := by
  simp only [setBlurPasses, reblurCurrentImage, blurSourceInto]
  split
  · split <;> simp_all
  · simp_all

theorem setTintColor_fields (s : EngineState) (r g b : ℚ) :
    (setTintColor s r g b).isTransitioning = s.isTransitioning ∧
    (setTintColor s r g b).transitionStartTime = s.transitionStartTime ∧
    (setTintColor s r g b).transitionDuration = s.transitionDuration := by
  simp only [setTintColor, reblurCurrentImage, blurSourceInto]
  split
  · split <;> simp_all
  · simp_all

theorem setTintIntensity_fields (s : EngineState) (v : ℚ) :
    (setTintIntensity s v).isTransitioning = s.isTransitioning ∧
    (setTintIntensity s v).transitionStartTime = s.transitionStartTime ∧
    (setTintIntensity s v).transitionDuration = s.transitionDuration ∧
    (setTintIntensity s v).tintIntensity = max 0 (min 1 v) := by
  simp only [setTintIntensity, reblurCurrentImage, blurSourceInto]
  split
  · split <;> simp_all
  · simp_all

theorem jsMin_num (a b : ℚ) : jsMin (.num a) (.num b) = .num (min a b) := rfl

theorem jsLe_num (a b : ℚ) : jsLe (.num a) (.num b) = decide (a ≤ b) := rfl

theorem jsGe_num (a b : ℚ) : jsGe (.num a) (.num b) = decide (b ≤ a) := rfl

theorem blendFactorAt_active (s : EngineState) (ts : ℚ)
    (h : s.isTransitioning = true) (hd : s.transitionDuration ≠ 0) :
    blendFactorAt s ts =
      .num (min 1 ((ts - s.transitionStartTime) / s.transitionDuration)) := by
  simp [blendFactorAt, h, jsDiv, hd, jsMin_num]

theorem applyOp_nonframe_isTransitioning (op : Op) (s : EngineState)
    (hop : isFrameOp op = false) (h : s.isTransitioning = true) :
    (applyOp op s).isTransitioning = true := by
  cases op with
  | opSetWarpIntensity v => exact h
  | opSetBlurPasses v =>
    show (setBlurPasses s v).isTransitioning = true
    rw [(setBlurPasses_fields s v).1]; exact h
  | opSetAnimationSpeed v => exact h
  | opSetTransitionDuration v => exact h
  | opSetSaturation v => exact h
  | opSetTintColor r g b =>
    show (setTintColor s r g b).isTransitioning = true
    rw [(setTintColor_fields s r g b).1]; exact h
  | opSetTintIntensity v =>
    show (setTintIntensity s v).isTransitioning = true
    rw [(setTintIntensity_fields s v).1]; exact h
  | opSetDithering v => exact h
  | opIngest img now =>
    simp [applyOp, loadImageResolve, processNewImage, blurSourceInto]
  | opStart now =>
    show (start s now).isTransitioning = true
    simp only [start]; split <;> exact h
  | opStop => exact h
  | opResize => exact h
  | opDispose => exact h
  | opTick ts id => simp [isFrameOp] at hop
  | opRenderFrame t now => simp [isFrameOp] at hop

/-- Claim C1: while a transition is active with `transitionDuration > 0`,
the frame's blend factor is exactly `min(1, (now − transitionStartTime) /
transitionDuration)`; it is monotonically non-decreasing over frames with
non-decreasing timestamps; the transition returns to Idle exactly on the
first frame whose blend factor reaches 1.0 (rendering does not change the
start time or duration, so the factor only grows across frames); and the
Active→Idle change happens only inside frame rendering — no non-frame
operation ever clears an active transition. -/
theorem C1_transition_blend :
    (∀ (s : EngineState) (ts : ℚ), s.isTransitioning = true →
        0 < s.transitionDuration →
        blendFactorAt s ts =
          .num (min 1 ((ts - s.transitionStartTime) / s.transitionDuration))) ∧
    (∀ (s : EngineState) (ts1 ts2 : ℚ), s.isTransitioning = true →
        0 < s.transitionDuration → ts1 ≤ ts2 →
        jsLe (blendFactorAt s ts1) (blendFactorAt s ts2) = true) ∧
    (∀ (s : EngineState) (t ts : ℚ), s.isTransitioning = true →
        0 < s.transitionDuration →
        ((render s t ts).1.isTransitioning = false ↔
          blendFactorAt s ts = .num 1)) ∧
    (∀ (s : EngineState) (t ts : ℚ),
        (render s t ts).1.transitionStartTime = s.transitionStartTime ∧
        (render s t ts).1.transitionDuration = s.transitionDuration) ∧
    (∀ (op : Op) (s : EngineState), isFrameOp op = false →
        s.isTransitioning = true → (applyOp op s).isTransitioning = true) := by
  refine ⟨fun s ts h hd => blendFactorAt_active s ts h hd.ne',
    fun s ts1 ts2 h hd hle => ?_, fun s t ts h hd => ?_,
    fun s t ts => ?_, applyOp_nonframe_isTransitioning⟩
  · rw [blendFactorAt_active s ts1 h hd.ne',
      blendFactorAt_active s ts2 h hd.ne', jsLe_num]
    simp only [decide_eq_true_eq]
    refine min_le_min le_rfl ?_
    rw [div_le_div_iff₀ hd hd]
    have : ts1 - s.transitionStartTime ≤ ts2 - s.transitionStartTime := by
      linarith
    exact mul_le_mul_of_nonneg_right this hd.le
  · rw [render_fst, blendFactorAt_active s ts h hd.ne', jsGe_num]
    by_cases hq : (1 : ℚ) ≤ min 1 ((ts - s.transitionStartTime) / s.transitionDuration)
    · have hmin : min (1 : ℚ) ((ts - s.transitionStartTime) / s.transitionDuration) = 1 :=
        le_antisymm (min_le_left _ _) hq
      simp [h, hq, hmin]
    · have hmin : min (1 : ℚ) ((ts - s.transitionStartTime) / s.transitionDuration) ≠ 1 := by
        intro hc
        exact hq (le_of_eq hc.symm)
      simp [h, hq, hmin]
  · rw [render_fst]
    split <;> exact ⟨rfl, rfl⟩

/-- Witness for C1 at a concrete mid-transition state (started at
timestamp 100, duration 1000 ms), sampled at frames 300, 600, 1100. -/
theorem C1_witness :
    demoActive.isTransitioning = true ∧
    (0 : ℚ) < demoActive.transitionDuration ∧
    blendFactorAt demoActive 600 =
      .num (min 1 ((600 - demoActive.transitionStartTime) /
        demoActive.transitionDuration)) ∧
    jsLe (blendFactorAt demoActive 300) (blendFactorAt demoActive 600) = true ∧
    ((render demoActive 0 1100).1.isTransitioning = false ↔
      blendFactorAt demoActive 1100 = .num 1) ∧
    (applyOp (.opSetSaturation 2) demoActive).isTransitioning = true := by
  refine ⟨rfl, by decide, ?_, ?_, ?_, ?_⟩
  · exact C1_transition_blend.1 demoActive 600 rfl (by decide)
  · exact C1_transition_blend.2.1 demoActive 300 600 rfl (by decide) (by norm_num)
  · exact C1_transition_blend.2.2.1 demoActive 0 1100 rfl (by decide)
  · exact C1_transition_blend.2.2.2.2 (.opSetSaturation 2) demoActive rfl rfl

/-- Counterexample for C2: after setting `transitionDuration = 0` and
ingesting at timestamp 0, the very first frame at elapsed time exactly 0
computes blend factor `min(1, 0/0) = NaN`, not 1.0. -/
theorem C2_counterexample :
    blendFactorAt stateDur0 0 = JSNum.nan ∧ JSNum.nan ≠ JSNum.num 1 := by
  constructor
  · have h : stateDur0.isTransitioning = true := rfl
    have hst : stateDur0.transitionStartTime = 0 := rfl
    have hd : stateDur0.transitionDuration = 0 := by
      norm_num [stateDur0, loadImageResolve, processNewImage, blurSourceInto,
        setTransitionDuration, initState, resize]
    simp [blendFactorAt, h, hst, hd, jsDiv, jsMin]
  · decide

/-- Claim C2 as amended: with `transitionDuration = 0`, every frame at
elapsed time strictly greater than 0 computes blend factor exactly 1.0; at
elapsed time exactly 0 the factor is `NaN` (JavaScript `0 / 0`), in which
case the frame still skips the crossfade and warps the new album texture
directly (an immediate cut), but the transition state stays Active for
that frame. -/
theorem C2_amended :
    ∀ (s : EngineState) (t ts : ℚ), s.isTransitioning = true →
    s.transitionDuration = 0 →
    (s.transitionStartTime < ts → blendFactorAt s ts = .num 1) ∧
    (ts = s.transitionStartTime →
      blendFactorAt s ts = .nan ∧
      (render s t ts).2.input = WarpInput.direct s.nextAlbumFBO ∧
      (render s t ts).1.isTransitioning = true) := by
  intro s t ts h hd
  constructor
  · intro hlt
    have hpos : 0 < ts - s.transitionStartTime := by linarith
    simp [blendFactorAt, h, jsDiv, hd, hpos, jsMin]
  · intro heq
    subst heq
    have h1 : blendFactorAt s s.transitionStartTime = .nan := by
      simp [blendFactorAt, h, jsDiv, hd, jsMin]
    have h2 : (render s t s.transitionStartTime).1 = s := by
      rw [render_fst, h1]
      simp [jsGe, jsLe]
    refine ⟨h1, ?_, by rw [h2]; exact h⟩
    show (render s t s.transitionStartTime).2.input = _
    simp only [render]
    rw [show blendFactorAt s s.transitionStartTime = .nan from h1]
    simp [jsGe, jsLe, jsLt, h]

/-- Witness for C2's amended claim at the concrete state `demoCut`
(ingest at timestamp 50, duration 0): blend factor 1.0 at the frame
timestamp 60, `NaN` at the frame timestamp 50. -/
theorem C2_witness :
    demoCut.isTransitioning = true ∧ demoCut.transitionDuration = 0 ∧
    demoCut.transitionStartTime < 60 ∧
    blendFactorAt demoCut 60 = .num 1 ∧
    blendFactorAt demoCut 50 = .nan := by
  refine ⟨rfl, rfl, by decide, ?_, ?_⟩
  · exact (C2_amended demoCut 0 60 rfl rfl).1 (by decide)
  · exact ((C2_amended demoCut 0 50 rfl rfl).2 rfl).1

theorem blurLoopDraws_length : ∀ (n i r w : ℕ),
    (blurLoopDraws i (i + n) r w).1.length = n := by
  intro n
  induction n with
  | zero =>
    intro i r w
    rw [blurLoopDraws]
    simp
  | succ n ih =>
    intro i r w
    rw [blurLoopDraws, dif_pos (show i < i + (n + 1) by omega)]
    simp only [List.length_cons]
    have he : i + (n + 1) = (i + 1) + n := by omega
    rw [he, ih (i + 1) w r]

theorem blurLoopDraws_get : ∀ (n i r w j : ℕ), j < n →
    (blurLoopDraws i (i + n) r w).1.get? j =
      some ⟨if j % 2 = 0 then r else w, if j % 2 = 0 then w else r,
        ((i + j : ℕ) : ℚ) + 1/2⟩ := by
  intro n
  induction n with
  | zero =>
    intro i r w j hj
    exact absurd hj (Nat.not_lt_zero j)
  | succ n ih =>
    intro i r w j hj
    rw [blurLoopDraws, dif_pos (show i < i + (n + 1) by omega)]
    cases j with
    | zero => simp
    | succ j =>
      simp only [List.get?_cons_succ]
      have he : i + (n + 1) = (i + 1) + n := by omega
      rw [he, ih (i + 1) w r j (by omega)]
      have harith : i + 1 + j = i + (j + 1) := by omega
      by_cases hp : j % 2 = 0
      · have hp1 : ¬ (j + 1) % 2 = 0 := by omega
        simp [hp, hp1, harith]
      · have hp1 : (j + 1) % 2 = 0 := by omega
        simp [hp, hp1, harith]

theorem blurLoopDraws_foldl : ∀ (n i r w : ℕ) (mem : ℕ → Img), r ≠ w →
    ((blurLoopDraws i (i + n) r w).1.foldl applyDraw mem)
        ((blurLoopDraws i (i + n) r w).2) =
      kawaseChain (mem r) i n := by
  intro n
  induction n with
  | zero =>
    intro i r w mem hrw
    rw [blurLoopDraws]
    simp [kawaseChain]
  | succ n ih =>
    intro i r w mem hrw
    rw [blurLoopDraws, dif_pos (show i < i + (n + 1) by omega)]
    dsimp only
    have he : i + (n + 1) = (i + 1) + n := by omega
    rw [he, List.foldl_cons]
    have hupd : applyDraw mem ⟨r, w, (i : ℚ) + 1/2⟩ =
        Function.update mem w (kawasePass (mem r) ((i : ℚ) + 1/2)) := rfl
    rw [hupd,
      ih (i + 1) w r
        (Function.update mem w (kawasePass (mem r) ((i : ℚ) + 1/2)))
        (Ne.symm hrw),
      Function.update_same]
    rfl

theorem kawasePass_zero (img : Img) : kawasePass img 0 = img := by
  funext uv c
  simp only [kawasePass, zero_mul, sub_zero, add_zero, Prod.mk.eta]
  ring

/-- Claim C5: `blurSourceInto` runs exactly `blurPasses` Kawase passes
alternating the two scratch targets as read and write, where pass `i`
(0-based) samples the four diagonal offsets at distance `i + 0.5`
texel-units and averages them (sum × 0.25), then one final pass with
offset 0 — which on the shader arithmetic is the identity, i.e. a copy —
writes the last-written scratch target into the destination album slot,
so the destination ends up holding the full Kawase chain of the tinted
source. -/
theorem C5_blur_pipeline (p b1 b2 tgt : ℕ) (src : Img) (tr tg tb ti : ℚ)
    (mem : ℕ → Img) (hbb : b1 ≠ b2) :
    (blurLoopDraws 0 p b1 b2).1.length = p ∧
    (∀ j, j < p → (blurLoopDraws 0 p b1 b2).1.get? j =
      some ⟨if j % 2 = 0 then b1 else b2, if j % 2 = 0 then b2 else b1,
        (j : ℚ) + 1/2⟩) ∧
    (blurDraws p tgt b1 b2).getLast? =
      some ⟨(blurLoopDraws 0 p b1 b2).2, tgt, 0⟩ ∧
    (∀ img : Img, kawasePass img 0 = img) ∧
    blurSourceIntoSem src tr tg tb ti p tgt b1 b2 mem tgt =
      kawaseChain (tintShader src tr tg tb ti) 0 p := by
  refine ⟨?_, ?_, ?_, kawasePass_zero, ?_⟩
  · simpa using blurLoopDraws_length p 0 b1 b2
  · intro j hj
    simpa using blurLoopDraws_get p 0 b1 b2 j hj
  · simp [blurDraws, List.getLast?_concat]
  · have hfold := blurLoopDraws_foldl p 0 b1 b2
      (Function.update mem b1 (tintShader src tr tg tb ti)) hbb
    rw [Function.update_same] at hfold
    simp only [Nat.zero_add] at hfold
    simp only [blurSourceIntoSem, blurDraws]
    rw [List.foldl_append]
    simp only [List.foldl_cons, List.foldl_nil, applyDraw]
    rw [Function.update_same, kawasePass_zero]
    exact hfold

/-- Witness for C5 at two passes with scratch targets 0/1 and destination
3 on a concrete black source image. -/
theorem C5_witness :
    (0 : ℕ) ≠ 1 ∧
    (blurLoopDraws 0 2 0 1).1.length = 2 ∧
    (blurDraws 2 3 0 1).getLast? = some ⟨(blurLoopDraws 0 2 0 1).2, 3, 0⟩ := by
  have h := C5_blur_pipeline 2 0 1 3 (fun _ _ => 0) 0 0 0 0
    (fun _ _ _ => 0) (by decide)
  exact ⟨by decide, h.1, h.2.2.1⟩

/-- Claim C6: every parameter setter clamps out-of-range input to the
nearest boundary of its documented range (`warpIntensity` to `[0,1]`,
`blurPasses` to an integer in `[1,40]`, `animationSpeed` to `[0.1,5]`,
`transitionDuration` to `[0,5000]`, `saturation` to `[0,3]`, each
`tintColor` channel to `[0,1]`, `tintIntensity` to `[0,1]`, `dithering` to
`[0,0.1]`) and never rejects (every setter is a total state transformer);
in particular `blurPasses = 999` stores 40 and `warpIntensity = -5`
stores 0. -/
theorem C6_setters_clamp :
    (∀ (s : EngineState) (v : ℚ),
        (setWarpIntensity s v).warpIntensity = max 0 (min 1 v)) ∧
    (∀ (s : EngineState) (v : ℚ),
        (setBlurPasses s v).blurPasses = max 1 (min 40 ⌊v⌋)) ∧
    (∀ (s : EngineState) (v : ℚ),
        (setAnimationSpeed s v).targetAnimationSpeed = max (1/10) (min 5 v)) ∧
    (∀ (s : EngineState) (v : ℚ),
        (setTransitionDuration s v).transitionDuration = max 0 (min 5000 v)) ∧
    (∀ (s : EngineState) (v : ℚ),
        (setSaturation s v).saturation = max 0 (min 3 v)) ∧
    (∀ (s : EngineState) (r g b : ℚ),
        (setTintColor s r g b).tintR = max 0 (min 1 r) ∧
        (setTintColor s r g b).tintG = max 0 (min 1 g) ∧
        (setTintColor s r g b).tintB = max 0 (min 1 b)) ∧
    (∀ (s : EngineState) (v : ℚ),
        (setTintIntensity s v).tintIntensity = max 0 (min 1 v)) ∧
    (∀ (s : EngineState) (v : ℚ),
        (setDithering s v).dithering = max 0 (min (1/10) v)) ∧
    (∀ s : EngineState, (setBlurPasses s 999).blurPasses = 40) ∧
    (∀ s : EngineState, (setWarpIntensity s (-5)).warpIntensity = 0) := by
  refine ⟨fun s v => rfl, fun s v => (setBlurPasses_fields s v).2.2.2,
    fun s v => rfl, fun s v => rfl, fun s v => rfl, fun s r g b => ?_,
    fun s v => (setTintIntensity_fields s v).2.2.2, fun s v => rfl,
    fun s => ?_, fun s => ?_⟩
  · simp only [setTintColor, reblurCurrentImage, blurSourceInto]
    split
    · split <;> simp_all
    · simp_all
  · rw [(setBlurPasses_fields s 999).2.2.2]; norm_num
  · simp only [setWarpIntensity]; norm_num

theorem ingestSeq_inv (l : List (Image × ℚ)) : ∀ s : EngineState,
    (ingestSeq s l).liveTargets = s.liveTargets ∧
    (ingestSeq s l).blurFBO1 = s.blurFBO1 ∧
    (ingestSeq s l).blurFBO2 = s.blurFBO2 ∧
    (ingestSeq s l).warpFBO = s.warpFBO ∧
    ((ingestSeq s l).currentAlbumFBO = s.currentAlbumFBO ∧
      (ingestSeq s l).nextAlbumFBO = s.nextAlbumFBO ∨
     (ingestSeq s l).currentAlbumFBO = s.nextAlbumFBO ∧
      (ingestSeq s l).nextAlbumFBO = s.currentAlbumFBO) := by
  induction l with
  | nil => intro s; exact ⟨rfl, rfl, rfl, rfl, Or.inl ⟨rfl, rfl⟩⟩
  | cons p rest ih =>
    intro s
    have step : ingestSeq s (p :: rest) =
        ingestSeq (loadImageResolve s p.1 p.2) rest := rfl
    rw [step]
    obtain ⟨h1, h2, h3, h4, h5⟩ := ih (loadImageResolve s p.1 p.2)
    refine ⟨by rw [h1]; rfl, by rw [h2]; rfl, by rw [h3]; rfl,
      by rw [h4]; rfl, ?_⟩
    rcases h5 with ⟨ha, hb⟩ | ⟨ha, hb⟩
    · exact Or.inr ⟨by rw [ha]; rfl, by rw [hb]; rfl⟩
    · exact Or.inl ⟨by rw [ha]; rfl, by rw [hb]; rfl⟩

/-- Claim C3: ingesting a new image is an O(1) reference exchange of the
two album slots — the slot holding the previous "next" becomes "current",
the blur output is written into the other slot (the new "next", leaving
every other slot's content untouched) — and starts a transition; and over
any sequence of successive ingests from a fresh engine the set of live
render targets stays exactly the same five targets (2 album + 2 blur
scratch + 1 full-resolution), with no target created or destroyed
(`nextId`, the allocator, never moves). -/
theorem C3_ingest_swap :
    (∀ (s : EngineState) (img : Image) (now : ℚ),
        (loadImageResolve s img now).currentAlbumFBO = s.nextAlbumFBO ∧
        (loadImageResolve s img now).nextAlbumFBO = s.currentAlbumFBO ∧
        (loadImageResolve s img now).content s.currentAlbumFBO =
          AlbumVal.blurred img s.blurPasses s.tintR s.tintG s.tintB
            s.tintIntensity ∧
        (∀ x, x ≠ s.currentAlbumFBO →
          (loadImageResolve s img now).content x = s.content x) ∧
        (loadImageResolve s img now).isTransitioning = true ∧
        (loadImageResolve s img now).transitionStartTime = now ∧
        (loadImageResolve s img now).liveTargets = s.liveTargets ∧
        (loadImageResolve s img now).nextId = s.nextId) ∧
    (∀ l : List (Image × ℚ),
        (ingestSeq initState l).liveTargets =
          {(ingestSeq initState l).blurFBO1, (ingestSeq initState l).blurFBO2,
           (ingestSeq initState l).currentAlbumFBO,
           (ingestSeq initState l).nextAlbumFBO,
           (ingestSeq initState l).warpFBO} ∧
        (ingestSeq initState l).liveTargets.card = 5) := by
  constructor
  · intro s img now
    refine ⟨rfl, rfl, ?_, ?_, rfl, rfl, rfl, rfl⟩
    · show Function.update s.content s.currentAlbumFBO _ s.currentAlbumFBO = _
      rw [Function.update_same]
      rfl
    · intro x hx
      show Function.update s.content s.currentAlbumFBO _ x = s.content x
      rw [Function.update_noteq hx]
  · intro l
    obtain ⟨h1, h2, h3, h4, h5⟩ := ingestSeq_inv l initState
    have hcard : initState.liveTargets.card = 5 := by decide
    rcases h5 with ⟨ha, hb⟩ | ⟨ha, hb⟩ <;>
      rw [h1, h2, h3, h4, ha, hb] <;>
      exact ⟨by decide, hcard⟩

/-- Witness for C3: one concrete ingest on a fresh engine, and the
target-set invariant after the three-ingest sequence. -/
theorem C3_witness :
    (3 : ℕ) ≠ initState.currentAlbumFBO ∧
    (loadImageResolve initState 7 3).currentAlbumFBO =
      initState.nextAlbumFBO ∧
    (loadImageResolve initState 7 3).content 3 = initState.content 3 ∧
    (ingestSeq initState [(7, 3), (8, 4), (9, 5)]).liveTargets.card = 5 := by
  refine ⟨by decide, (C3_ingest_swap.1 initState 7 3).1, ?_, ?_⟩
  · exact (C3_ingest_swap.1 initState 7 3).2.2.2.1 3 (by decide)
  · exact (C3_ingest_swap.2 [(7, 3), (8, 4), (9, 5)]).2

/-- Claim C4: setting `blurPasses`, `tintColor` or `tintIntensity` to a new
in-range value while an image is loaded re-runs the blur pipeline into the
next album slot in place and leaves the transition state unchanged:
`isTransitioning`, `transitionStartTime` and the blend factor at every
frame timestamp are identical before and after the setter, so no
Idle→Active transition fires. -/
theorem C4_reblur_no_transition :
    ∀ s : EngineState, s.hasImage = true →
    (∀ v : ℚ, 1 ≤ ⌊v⌋ → ⌊v⌋ ≤ 40 → ⌊v⌋ ≠ s.blurPasses →
        (setBlurPasses s v).content s.nextAlbumFBO =
          AlbumVal.blurred s.sourceImage ⌊v⌋ s.tintR s.tintG s.tintB
            s.tintIntensity ∧
        (setBlurPasses s v).isTransitioning = s.isTransitioning ∧
        (setBlurPasses s v).transitionStartTime = s.transitionStartTime ∧
        ∀ ts, blendFactorAt (setBlurPasses s v) ts = blendFactorAt s ts) ∧
    (∀ r g b : ℚ, 0 ≤ r → r ≤ 1 → 0 ≤ g → g ≤ 1 → 0 ≤ b → b ≤ 1 →
        (r, g, b) ≠ (s.tintR, s.tintG, s.tintB) →
        (setTintColor s r g b).content s.nextAlbumFBO =
          AlbumVal.blurred s.sourceImage s.blurPasses r g b s.tintIntensity ∧
        (setTintColor s r g b).isTransitioning = s.isTransitioning ∧
        (setTintColor s r g b).transitionStartTime = s.transitionStartTime ∧
        ∀ ts, blendFactorAt (setTintColor s r g b) ts = blendFactorAt s ts) ∧
    (∀ v : ℚ, 0 ≤ v → v ≤ 1 → v ≠ s.tintIntensity →
        (setTintIntensity s v).content s.nextAlbumFBO =
          AlbumVal.blurred s.sourceImage s.blurPasses s.tintR s.tintG
            s.tintB v ∧
        (setTintIntensity s v).isTransitioning = s.isTransitioning ∧
        (setTintIntensity s v).transitionStartTime = s.transitionStartTime ∧
        ∀ ts, blendFactorAt (setTintIntensity s v) ts = blendFactorAt s ts) := by
  intro s hImg
  refine ⟨fun v h1 h40 hne => ?_, fun r g b hr0 hr1 hg0 hg1 hb0 hb1 hne => ?_,
    fun v h0 hv1 hne => ?_⟩
  · have hclamp : max 1 (min 40 ⌊v⌋) = ⌊v⌋ := by omega
    have hs : setBlurPasses s v =
        reblurCurrentImage { s with blurPasses := ⌊v⌋ } := by
      simp only [setBlurPasses, hclamp]
      rw [if_pos hne, if_pos hImg]
    rw [hs]
    refine ⟨?_, rfl, rfl, fun ts => rfl⟩
    show Function.update s.content s.nextAlbumFBO _ s.nextAlbumFBO = _
    rw [Function.update_same]
    rfl
  · have hnr : max 0 (min 1 r) = r := by rw [min_eq_right hr1, max_eq_right hr0]
    have hng : max 0 (min 1 g) = g := by rw [min_eq_right hg1, max_eq_right hg0]
    have hnb : max 0 (min 1 b) = b := by rw [min_eq_right hb1, max_eq_right hb0]
    have hcond : r ≠ s.tintR ∨ g ≠ s.tintG ∨ b ≠ s.tintB := by
      by_contra hc
      push_neg at hc
      exact hne (by rw [hc.1, hc.2.1, hc.2.2])
    have hs : setTintColor s r g b =
        reblurCurrentImage { s with tintR := r, tintG := g, tintB := b } := by
      simp only [setTintColor, hnr, hng, hnb]
      rw [if_pos hcond, if_pos hImg]
    rw [hs]
    refine ⟨?_, rfl, rfl, fun ts => rfl⟩
    show Function.update s.content s.nextAlbumFBO _ s.nextAlbumFBO = _
    rw [Function.update_same]
    rfl
  · have hnv : max 0 (min 1 v) = v := by rw [min_eq_right hv1, max_eq_right h0]
    have hs : setTintIntensity s v =
        reblurCurrentImage { s with tintIntensity := v } := by
      simp only [setTintIntensity, hnv]
      rw [if_pos hne, if_pos hImg]
    rw [hs]
    refine ⟨?_, rfl, rfl, fun ts => rfl⟩
    show Function.update s.content s.nextAlbumFBO _ s.nextAlbumFBO = _
    rw [Function.update_same]
    rfl

/-- Witness for C4 at the concrete mid-transition state `demoActive`:
changing `blurPasses` from 8 to 12 re-blurs the next slot and leaves the
transition fields as they were. -/
theorem C4_witness :
    demoActive.hasImage = true ∧ (1 : ℤ) ≤ ⌊(12 : ℚ)⌋ ∧ ⌊(12 : ℚ)⌋ ≤ 40 ∧
    ⌊(12 : ℚ)⌋ ≠ demoActive.blurPasses ∧
    (setBlurPasses demoActive 12).isTransitioning =
      demoActive.isTransitioning ∧
    (setBlurPasses demoActive 12).content demoActive.nextAlbumFBO =
      AlbumVal.blurred demoActive.sourceImage ⌊(12 : ℚ)⌋ demoActive.tintR
        demoActive.tintG demoActive.tintB demoActive.tintIntensity := by
  have ha : (1 : ℤ) ≤ ⌊(12 : ℚ)⌋ := by norm_num
  have hb : ⌊(12 : ℚ)⌋ ≤ 40 := by norm_num
  have hc : ⌊(12 : ℚ)⌋ ≠ demoActive.blurPasses := by
    show ⌊(12 : ℚ)⌋ ≠ (8 : ℤ)
    norm_num
  obtain ⟨hcontent, htrans, _, _⟩ :=
    (C4_reblur_no_transition demoActive rfl).1 12 ha hb hc
  exact ⟨rfl, ha, hb, hc, htrans, hcontent⟩

/-- Counterexample for C7: the code has no "disposed" flag — a load that
resolves after `dispose()` still mutates the transition state (Idle
becomes Active) and rewrites an album slot. -/
theorem C7_counterexample :
    (dispose initState).isTransitioning = false ∧
    disposedIngest.isTransitioning = true ∧
    disposedIngest.content (dispose initState).currentAlbumFBO ≠
      (dispose initState).content (dispose initState).currentAlbumFBO := by
  refine ⟨rfl, rfl, ?_⟩
  decide

/-- Claim C7 as amended: there is no disposed-flag check — a load that
resolves after `dispose()` performs exactly the ingest it would have
performed before disposal (the two commute), in particular it sets the
transition state Active; `dispose()` itself is idempotent, safe to call
multiple times. -/
theorem C7_amended :
    (∀ (s : EngineState) (img : Image) (now : ℚ),
        loadImageResolve (dispose s) img now =
          dispose (loadImageResolve s img now) ∧
        (loadImageResolve (dispose s) img now).isTransitioning = true) ∧
    (∀ s : EngineState, dispose (dispose s) = dispose s) := by
  constructor
  · intro s img now
    refine ⟨?_, rfl⟩
    have hlive : (loadImageResolve (dispose s) img now).liveTargets =
        (dispose (loadImageResolve s img now)).liveTargets := by
      show ((((s.liveTargets.erase s.blurFBO1).erase s.blurFBO2).erase
              s.currentAlbumFBO).erase s.nextAlbumFBO).erase s.warpFBO =
          ((((s.liveTargets.erase s.blurFBO1).erase s.blurFBO2).erase
              s.nextAlbumFBO).erase s.currentAlbumFBO).erase s.warpFBO
      ext x
      simp only [Finset.mem_erase]
      tauto
    apply EngineState.ext <;> first | rfl | exact hlive
  · intro s
    have hlive : (dispose (dispose s)).liveTargets =
        (dispose s).liveTargets := by
      show (((((((((s.liveTargets.erase s.blurFBO1).erase s.blurFBO2).erase
          s.currentAlbumFBO).erase s.nextAlbumFBO).erase s.warpFBO).erase
          s.blurFBO1).erase s.blurFBO2).erase s.currentAlbumFBO).erase
          s.nextAlbumFBO).erase s.warpFBO =
        ((((s.liveTargets.erase s.blurFBO1).erase s.blurFBO2).erase
          s.currentAlbumFBO).erase s.nextAlbumFBO).erase s.warpFBO
      ext x
      simp only [Finset.mem_erase]
      tauto
    apply EngineState.ext <;> first | rfl | exact hlive

/-- Claim C8: on each animation tick the current speed is exponentially
smoothed toward the target by `current += (target − current) × 0.05`, the
logical time is accumulated as `accumulated += dt × currentSpeed` with `dt`
the delta from the previous tick's timestamp, that accumulated time is the
time handed to the warp/composite stage, and setting `animationSpeed`
changes only the target speed. -/
theorem C8_scheduler :
    (∀ (s : EngineState) (ts : ℚ) (id : ℕ), s.isPlaying = true →
        (renderLoopTick s ts id).1.animationSpeed =
          s.animationSpeed +
            (s.targetAnimationSpeed - s.animationSpeed) * (5/100) ∧
        (renderLoopTick s ts id).1.accumulatedTime =
          s.accumulatedTime + ((ts - s.lastFrameTime) / 1000) *
            (renderLoopTick s ts id).1.animationSpeed ∧
        (renderLoopTick s ts id).1.lastFrameTime = ts ∧
        (renderLoopTick s ts id).2.map FrameDesc.warpTime =
          some ((renderLoopTick s ts id).1.accumulatedTime)) ∧
    (∀ (s : EngineState) (v : ℚ),
        setAnimationSpeed s v =
          { s with targetAnimationSpeed := max (1/10) (min 5 v) }) := by
  constructor
  · intro s ts id h
    simp only [renderLoopTick, h, if_true, render_fst]
    split <;> simp [render, blendFactorAt]
  · intro s v
    rfl

/-- Witness for C8 at a concrete playing state ticked at timestamp 16. -/
theorem C8_witness :
    demoPlaying.isPlaying = true ∧
    (renderLoopTick demoPlaying 16 1).1.lastFrameTime = 16 ∧
    (renderLoopTick demoPlaying 16 1).1.animationSpeed =
      demoPlaying.animationSpeed +
        (demoPlaying.targetAnimationSpeed - demoPlaying.animationSpeed) *
          (5/100) := by
  obtain ⟨h1, h2, h3, h4⟩ := C8_scheduler.1 demoPlaying 16 1 rfl
  exact ⟨rfl, h3, h1⟩

/-- Claim C9: `renderFrame` with an explicit time argument renders using
exactly that time and leaves the scheduler state (`accumulatedTime`, the
smoothed current `animationSpeed`, `lastFrameTime`) unchanged; the
parameterless form is what advances them. -/
theorem C9_renderFrame_explicit :
    ∀ (s : EngineState) (t now : ℚ),
      (renderFrame s (some t) now).1.accumulatedTime = s.accumulatedTime ∧
      (renderFrame s (some t) now).1.animationSpeed = s.animationSpeed ∧
      (renderFrame s (some t) now).1.lastFrameTime = s.lastFrameTime ∧
      (renderFrame s (some t) now).2.warpTime = t ∧
      ((renderFrame s none now).1.lastFrameTime = now ∧
       (renderFrame s none now).1.animationSpeed =
         s.animationSpeed +
           (s.targetAnimationSpeed - s.animationSpeed) * (5/100) ∧
       (renderFrame s none now).1.accumulatedTime =
         s.accumulatedTime + ((now - s.lastFrameTime) / 1000) *
           (renderFrame s none now).1.animationSpeed) := by
  intro s t now
  refine ⟨?_, ?_, ?_, rfl, ?_, ?_, ?_⟩ <;>
    simp only [renderFrame, render_fst] <;> split <;> rfl

/-- Claim C10: immediately after setting `animationSpeed` to `v`, both the
`animationSpeed` getter and `getOptions().animationSpeed` return
`clamp(v, 0.1, 5)` — the target speed — independently of the internally
smoothed current speed, which no public getter observes. -/
theorem C10_speed_roundtrip :
    ∀ (s : EngineState) (v : ℚ),
      getAnimationSpeed (setAnimationSpeed s v) = max (1/10) (min 5 v) ∧
      (getOptions (setAnimationSpeed s v)).animationSpeed =
        max (1/10) (min 5 v) ∧
      (∀ cur : ℚ,
        getAnimationSpeed
            { setAnimationSpeed s v with animationSpeed := cur } =
          max (1/10) (min 5 v) ∧
        getOptions { s with animationSpeed := cur } = getOptions s) :=
  fun _ _ => ⟨rfl, rfl, fun _ => ⟨rfl, rfl⟩⟩

end Kawarp
